import Mathlib

/-!
Shallow embedding of `src/core/src/network/port_scanner.rs` (Rust), the port
scanning engine: scanner configuration, TCP/UDP probes, service detection,
banner grabbing and scan-cost estimation, together with theorems settling the
specification claims.

Modelling conventions:
* `u16` ports are `Nat`; theorems add the bound `≤ 65535` where the 16-bit
  type matters.  `usize`/`u64` quantities are `Nat` with explicit `% 2 ^ 64`
  at the places the Rust code casts.
* Checked (debug) arithmetic: an arithmetic panic (overflow, underflow,
  division by zero) and a library panic (rayon `chunks(0)`) are modelled by
  an `Option` result being `none`.
* `anyhow::Result` is `Except String`.
* Network I/O is modelled by oracle values describing the outcome of each
  system call, passed explicitly to the functions that perform I/O.
-/

namespace PortScannerModel

/-- Rust enum `PortState` from port_scanner.rs. -/
inductive PortState where
  | Open
  | Closed
  | Filtered
  | OpenFiltered
deriving DecidableEq, Repr

/-- Rust enum `Protocol` from port_scanner.rs. -/
inductive Protocol where
  | TCP
  | UDP
deriving DecidableEq, Repr

/-- Rust struct `PortResult`: the per-port outcome of a probe. -/
structure PortResult where
  port : Nat
  state : PortState
  service : Option String
  protocol : Protocol
  banner : Option String
deriving DecidableEq, Repr

/-- Rust struct `PortScanner` (the `target: IpAddr` field is omitted: every
function of the model receives the network behaviour as an explicit oracle,
so the address itself never influences a computed value).  `timeout_ms` is
`timeout_duration.as_millis()` of the `Duration` field, a `Nat` because
`as_millis` yields `u128`. -/
structure PortScanner where
  start : Nat
  «end» : Nat
  timeout_ms : Nat
  max_parallel : Nat
deriving DecidableEq, Repr

/-- Constructor `PortScanner::new`: default timeout 1000 ms, default parallelism 100. -/
def PortScanner.new (start_port end_port : Nat) : PortScanner :=
  { start := start_port, «end» := end_port, timeout_ms := 1000, max_parallel := 100 }

/-- Builder `PortScanner::with_timeout` (duration given in milliseconds). -/
def PortScanner.with_timeout (s : PortScanner) (ms : Nat) : PortScanner :=
  { s with timeout_ms := ms }

/-- Builder `PortScanner::with_parallelism`. -/
def PortScanner.with_parallelism (s : PortScanner) (mp : Nat) : PortScanner :=
  { s with max_parallel := mp }

/-- Catalog `PortScanner::detect_service`: the static port → service-name catalog,
translated match arm by match arm. -/
def detect_service (port : Nat) : Option String :=
  match port with
  | 20 => some "FTP-DATA"
  | 21 => some "FTP"
  | 22 => some "SSH"
  | 23 => some "Telnet"
  | 25 => some "SMTP"
  | 53 => some "DNS"
  | 80 => some "HTTP"
  | 110 => some "POP3"
  | 143 => some "IMAP"
  | 443 => some "HTTPS"
  | 445 => some "SMB"
  | 3306 => some "MySQL"
  | 3389 => some "RDP"
  | 5432 => some "PostgreSQL"
  | 5900 => some "VNC"
  | 6379 => some "Redis"
  | 8080 => some "HTTP-Proxy"
  | 8443 => some "HTTPS-Alt"
  | 27017 => some "MongoDB"
  | _ => none

/-- The ports `detect_service` maps, in source order. -/
def knownServicePorts : List Nat :=
  [20, 21, 22, 23, 25, 53, 80, 110, 143, 443, 445,
   3306, 3389, 5432, 5900, 6379, 8080, 8443, 27017]

/-- Network oracle for TCP connect probes: `net port = true` iff
`TcpStream::connect_timeout` to `(target, port)` succeeds within the
configured timeout. -/
def NetOracle := Nat → Bool

/-- Probe `PortScanner::scan_tcp_port`: connect succeeds ⇒ `Open` with catalog
service; any connect error ⇒ `Closed` with no service.  Both branches of the
Rust `match` return `Ok`. -/
def scan_tcp_port (s : PortScanner) (net : NetOracle) (port : Nat) :
    Except String PortResult :=
  if net port then
    .ok { port := port, state := .Open, service := detect_service port,
          protocol := .TCP, banner := none }
  else
    .ok { port := port, state := .Closed, service := none,
          protocol := .TCP, banner := none }

end PortScannerModel

namespace PortScannerModel

/-- Fuel-indexed worker for `chunksOf` (structural recursion so that the
kernel can evaluate it on concrete inputs). -/
def chunksGo (fuel : Nat) (n : Nat) (l : List α) : List (List α) :=
  match fuel, l with
  | 0, _ => []
  | _ + 1, [] => []
  | fuel + 1, l@(_ :: _) => l.take n :: chunksGo fuel n (l.drop n)

/-- Rayon `IndexedParallelIterator::chunks n`: successive sub-lists of length
`n`, the last possibly shorter.  Rayon panics when `n = 0`; that case is
guarded at the call site in `scan`. -/
def chunksOf (n : Nat) (l : List α) : List (List α) :=
  chunksGo l.length n l

/-- Orchestrator `PortScanner::scan`.  The port list is `(start..=end).collect()`;
`par_iter().chunks(max_parallel)` panics for `max_parallel = 0` (modelled as
`none`); otherwise each chunk is `filter_map`-ed through `scan_tcp_port`
(dropping `Err`, which never occurs) and rayon's order-preserving `collect`
concatenates the chunks back in order.  The Rust function always ends in
`Ok(results)`. -/
def scan (s : PortScanner) (net : NetOracle) :
    Option (Except String (List PortResult)) :=
  let ports : List Nat := List.range' s.start (s.«end» + 1 - s.start)
  if s.max_parallel = 0 then
    none
  else
    some (.ok ((chunksOf s.max_parallel ports).flatMap
      (fun chunk => chunk.filterMap (fun port => (scan_tcp_port s net port).toOption))))

/-- Outcome of `socket.recv_from` raced against `tokio::time::timeout` in
`scan_udp_port`: a datagram arrived, the receive returned an error, or the
timeout elapsed first. -/
inductive UdpRecv where
  | reply
  | recvErr
  | timedOut
deriving DecidableEq, Repr

/-- Oracle describing the system-call outcomes of one `scan_udp_port`
invocation: whether the local bind succeeds, whether `send_to` succeeds, and
what the timed receive produces. -/
structure UdpEnv where
  bindOk : Bool
  sendOk : Bool
  recv : UdpRecv
deriving DecidableEq, Repr

/-- Probe `PortScanner::scan_udp_port`: bind failure propagates with context
`"Failed to bind UDP socket"`; `send_to` failure propagates via `?`;
otherwise a reply ⇒ `Open`, a receive error ⇒ `Closed`, timeout ⇒
`OpenFiltered`, each packaged in `Ok` with the catalog service. -/
def scan_udp_port (s : PortScanner) (env : UdpEnv) (port : Nat) :
    Except String PortResult :=
  if !env.bindOk then
    .error "Failed to bind UDP socket"
  else if !env.sendOk then
    .error "send_to failed"
  else
    let state : PortState :=
      match env.recv with
      | .reply => .Open
      | .recvErr => .Closed
      | .timedOut => .OpenFiltered
    .ok { port := port, state := state, service := detect_service port,
          protocol := .UDP, banner := none }

/-- True iff `b` is a UTF-8 continuation byte (`0x80..=0xBF`). -/
def isCont (b : Nat) : Bool :=
  0x80 ≤ b && b < 0xC0

/-- Fuel-indexed worker for `utf8Lossy` (structural recursion on the fuel so
the kernel can evaluate concrete inputs); decodes a UTF-8 byte list into
characters, replacing each invalid sequence with U+FFFD. -/
def utf8LossyGo (fuel : Nat) (bs : List Nat) : List Char :=
  match fuel, bs with
  | 0, _ => []
  | _ + 1, [] => []
  | fuel + 1, b0 :: r =>
    if b0 < 0x80 then
      Char.ofNat b0 :: utf8LossyGo fuel r
    else if b0 < 0xC2 then
      '�' :: utf8LossyGo fuel r
    else if b0 < 0xE0 then
      match r with
      | b1 :: r1 =>
        if isCont b1 then
          Char.ofNat ((b0 - 0xC0) * 64 + (b1 - 0x80)) :: utf8LossyGo fuel r1
        else '�' :: utf8LossyGo fuel r
      | [] => ['�']
    else if b0 < 0xF0 then
      match r with
      | b1 :: b2 :: r2 =>
        if isCont b1 && isCont b2
            && (b0 ≠ 0xE0 || 0xA0 ≤ b1) && (b0 ≠ 0xED || b1 < 0xA0) then
          Char.ofNat ((b0 - 0xE0) * 4096 + (b1 - 0x80) * 64 + (b2 - 0x80))
            :: utf8LossyGo fuel r2
        else '�' :: utf8LossyGo fuel r
      | _ => ['�']
    else if b0 < 0xF5 then
      match r with
      | b1 :: b2 :: b3 :: r3 =>
        if isCont b1 && isCont b2 && isCont b3
            && (b0 ≠ 0xF0 || 0x90 ≤ b1) && (b0 ≠ 0xF4 || b1 < 0x90) then
          Char.ofNat ((b0 - 0xF0) * 262144 + (b1 - 0x80) * 4096
              + (b2 - 0x80) * 64 + (b3 - 0x80))
            :: utf8LossyGo fuel r3
        else '�' :: utf8LossyGo fuel r
      | _ => ['�']
    else
      '�' :: utf8LossyGo fuel r

/-- Model of Rust `String::from_utf8_lossy`: total permissive decoding of a
byte list — invalid sequences become replacement characters, never a
failure. -/
def from_utf8_lossy (bs : List Nat) : String :=
  String.mk (utf8LossyGo bs.length bs)

/-- Outcome of `tokio::time::timeout(_, TcpStream::connect(..))` in
`grab_banner`: connected in time, connect returned an error, or the timeout
fired. -/
inductive ConnectOutcome where
  | connected
  | connErr
  | timedOut
deriving DecidableEq, Repr

/-- Oracle describing the system-call outcomes of one `grab_banner`
invocation: the timed connect outcome, whether `set_read_timeout` succeeds
on the connected stream, and the result of the single `read` (the bytes
placed in the buffer, or an I/O error). -/
structure BannerEnv where
  connect : ConnectOutcome
  setReadTimeoutOk : Bool
  readResult : Except Unit (List Nat)
deriving Repr

/-- Banner reader `PortScanner::grab_banner`: on a timed-out or failed connect it returns
`Ok(None)`; on a connected stream, `set_read_timeout(..)?` propagates a
failure as `Err`; then a read of `n > 0` bytes yields
`Ok(Some(from_utf8_lossy bytes))` and any other read outcome yields
`Ok(None)`. -/
def grab_banner (s : PortScanner) (env : BannerEnv) (port : Nat) :
    Except String (Option String) :=
  match env.connect with
  | .connected =>
    if !env.setReadTimeoutOk then
      .error "set_read_timeout failed"
    else
      match env.readResult with
      | .ok bytes =>
        if 0 < bytes.length then
          .ok (some (from_utf8_lossy bytes))
        else
          .ok none
      | .error _ => .ok none
  | _ => .ok none

/-- The estimated-duration expression of `get_scan_info` in milliseconds:
`(total_ports as u64 * timeout_ms as u64) / max_parallel as u64` (natural
division). -/
def estimated_millis (total t64 mp : Nat) : Nat :=
  total * t64 / mp

/-- Rust struct `ScanInfo` (the `target: IpAddr` field is omitted, as in
`PortScanner`). -/
structure ScanInfo where
  port_range : String
  total_ports : Nat
  estimated_duration_seconds : Nat
  max_parallel : Nat
deriving DecidableEq, Repr

/-- Estimator `PortScanner::get_scan_info` under checked (debug) arithmetic:
`end - start + 1` is computed in `u16`, so it panics (`none`) on underflow
(`end < start`) and on overflow (`end - start + 1 > 65535`); the cast
`timeout.as_millis() as u64` truncates mod `2 ^ 64`; the `u64` product
`total_ports * timeout` panics on overflow; the division panics when
`max_parallel = 0`.  `estimated_duration_seconds` is
`Duration::from_millis(est).as_secs() = est / 1000`. -/
def get_scan_info (s : PortScanner) : Option ScanInfo :=
  if s.«end» < s.start then none
  else
    let total := s.«end» - s.start + 1
    if 65535 < total then none
    else
      let t64 := s.timeout_ms % 2 ^ 64
      if 2 ^ 64 ≤ total * t64 then none
      else if s.max_parallel = 0 then none
      else some
        { port_range := toString s.start ++ "-" ++ toString s.«end»,
          total_ports := total,
          estimated_duration_seconds := estimated_millis total t64 s.max_parallel / 1000,
          max_parallel := s.max_parallel }

/-! ## Helper lemmas -/

/-- Splitting a list into chunks and then `filterMap`-ing each chunk and
concatenating is `filterMap` on the whole list, provided the chunk size is
positive and the fuel covers the list. -/
theorem chunksGo_flatMap_filterMap {α β : Type} (f : α → Option β) (n : Nat)
    (hn : 1 ≤ n) :
    ∀ (fuel : Nat) (l : List α), l.length ≤ fuel →
      (chunksGo fuel n l).flatMap (fun c => c.filterMap f) = l.filterMap f := by
  intro fuel
  induction fuel with
  | zero =>
    intro l hl
    have : l = [] := List.eq_nil_of_length_eq_zero (Nat.le_zero.mp hl)
    subst this
    simp [chunksGo]
  | succ fuel ih =>
    intro l hl
    match l with
    | [] => simp [chunksGo]
    | a :: t =>
      have hdrop : (List.drop n (a :: t)).length ≤ fuel := by
        rw [List.length_drop, List.length_cons]
        have hl' : t.length + 1 ≤ fuel + 1 := by simpa using hl
        omega
      calc (chunksGo (fuel + 1) n (a :: t)).flatMap (fun c => c.filterMap f)
          = ((a :: t).take n).filterMap f
              ++ (chunksGo fuel n ((a :: t).drop n)).flatMap (fun c => c.filterMap f) := by
            simp [chunksGo]
        _ = ((a :: t).take n).filterMap f ++ ((a :: t).drop n).filterMap f := by
            rw [ih _ hdrop]
        _ = (a :: t).filterMap f := by
            rw [← List.filterMap_append, List.take_append_drop]

/-- Version of `chunksGo_flatMap_filterMap` at full fuel, for `chunksOf`. -/
theorem chunksOf_flatMap_filterMap {α β : Type} (f : α → Option β) (n : Nat)
    (hn : 1 ≤ n) (l : List α) :
    (chunksOf n l).flatMap (fun c => c.filterMap f) = l.filterMap f :=
  chunksGo_flatMap_filterMap f n hn l.length l (Nat.le_refl _)

/-- The value inside the `Ok` returned by `scan_tcp_port` (proof-layer
abbreviation of its two branches). -/
def tcpResult (net : NetOracle) (port : Nat) : PortResult :=
  if net port then
    { port := port, state := .Open, service := detect_service port,
      protocol := .TCP, banner := none }
  else
    { port := port, state := .Closed, service := none,
      protocol := .TCP, banner := none }

/-- Closed form of the TCP probe: it always returns `Ok`. -/
theorem scan_tcp_port_eq (s : PortScanner) (net : NetOracle) (port : Nat) :
    scan_tcp_port s net port = .ok (tcpResult net port) := by
  by_cases h : net port <;> simp [scan_tcp_port, tcpResult, h]

/-- On every port list, filtering the TCP probe results through `toOption`
drops nothing: it is a plain `map`. -/
theorem filterMap_scan_tcp (s : PortScanner) (net : NetOracle) (l : List Nat) :
    l.filterMap (fun port => (scan_tcp_port s net port).toOption) =
      l.map (tcpResult net) := by
  induction l with
  | nil => rfl
  | cons a t ih =>
    simp only [List.filterMap_cons, List.map_cons, ih]
    rw [scan_tcp_port_eq]
    rfl

/-- The probe result for a port carries that port number. -/
theorem scan_map_port (net : NetOracle) (l : List Nat) :
    (l.map (tcpResult net)).map PortResult.port = l := by
  induction l with
  | nil => rfl
  | cons a t ih =>
    by_cases h : net a <;> simp [tcpResult, h, ih]

/-- Closed form of `scan` for positive parallelism. -/
theorem scan_eq (s : PortScanner) (net : NetOracle) (h : 1 ≤ s.max_parallel) :
    scan s net = some (.ok
      ((List.range' s.start (s.«end» + 1 - s.start)).map (tcpResult net))) := by
  have hmp : ¬ s.max_parallel = 0 := by omega
  simp only [scan, hmp, if_false]
  rw [chunksOf_flatMap_filterMap _ _ h, filterMap_scan_tcp]

/-! ## Claim theorems -/

/-- C1: for every scanner configuration with `range.start ≤ range.end` (and
positive `max_parallel`, the `ScanConfig` invariant), `scan` returns `Ok`
with exactly `end - start + 1` `PortResult` values, one per port of
`[start, end]` in ascending order of port number. -/
theorem scan_output (s : PortScanner) (net : NetOracle)
    (h1 : s.start ≤ s.«end») (h2 : 1 ≤ s.max_parallel) :
    ∃ rs : List PortResult, scan s net = some (.ok rs) ∧
      rs.length = s.«end» - s.start + 1 ∧
      rs.map PortResult.port = List.range' s.start (s.«end» - s.start + 1) ∧
      (rs.map PortResult.port).Pairwise (· < ·) := by
  have hn : s.«end» + 1 - s.start = s.«end» - s.start + 1 := by omega
  refine ⟨_, scan_eq s net h2, ?_, ?_, ?_⟩
  · rw [List.length_map, List.length_range', hn]
  · rw [scan_map_port, hn]
  · rw [scan_map_port, hn]
    exact List.pairwise_lt_range' _ _ 1

/-- Witness for C1 at the concrete configuration `new 1 3` with a network
where every connect fails. -/
theorem scan_output_witness :
    ∃ rs : List PortResult,
      scan (PortScanner.new 1 3) (fun _ => false) = some (.ok rs) ∧
      rs.length = (PortScanner.new 1 3).«end» - (PortScanner.new 1 3).start + 1 ∧
      rs.map PortResult.port =
        List.range' (PortScanner.new 1 3).start
          ((PortScanner.new 1 3).«end» - (PortScanner.new 1 3).start + 1) ∧
      (rs.map PortResult.port).Pairwise (· < ·) :=
  scan_output (PortScanner.new 1 3) (fun _ => false) (by decide) (by decide)

/-- C2 (counterexample): on the inverted range `start = 2 > 1 = end`, `scan`
does not fail: it returns `Ok` with an empty result list, so no `ConfigError`
(indeed no error of any kind) is produced. -/
theorem scan_inverted_counterexample :
    scan (PortScanner.new 2 1) (fun _ => false) = some (.ok []) := by
  rfl

/-- C2 (amended): for every configuration with `range.start > range.end`
(and positive `max_parallel`), `scan` returns `Ok` with an empty result
list: the inclusive port range is empty, so no probe runs and no I/O
begins, but no `ConfigError` is raised — no range validation exists. -/
theorem scan_inverted_range (s : PortScanner) (net : NetOracle)
    (h1 : s.«end» < s.start) (h2 : 1 ≤ s.max_parallel) :
    scan s net = some (.ok []) := by
  have hz : s.«end» + 1 - s.start = 0 := by omega
  rw [scan_eq s net h2, hz]
  rfl

/-- Witness for C2 (amended) at the concrete configuration `new 2 1`. -/
theorem scan_inverted_range_witness :
    scan (PortScanner.new 2 1) (fun _ => true) = some (.ok []) :=
  scan_inverted_range (PortScanner.new 2 1) (fun _ => true) (by decide) (by decide)

/-- C3: the TCP probe classifies a successful connect as `Open` with the
Service Catalog name, and any connect failure as `Closed` with no service;
it never returns an error and never produces the `Filtered` state. -/
theorem scan_tcp_port_classification (s : PortScanner) (net : NetOracle) (port : Nat) :
    (net port = true →
      scan_tcp_port s net port = .ok
        { port := port, state := .Open, service := detect_service port,
          protocol := .TCP, banner := none }) ∧
    (net port = false →
      scan_tcp_port s net port = .ok
        { port := port, state := .Closed, service := none,
          protocol := .TCP, banner := none }) ∧
    (∀ r : PortResult, scan_tcp_port s net port = .ok r → r.state ≠ .Filtered) ∧
    (∀ e : String, scan_tcp_port s net port ≠ .error e) := by
  refine ⟨fun h => by simp [scan_tcp_port, h], fun h => by simp [scan_tcp_port, h], ?_, ?_⟩
  · intro r hr
    rw [scan_tcp_port_eq] at hr
    injection hr with h'
    subst h'
    by_cases h : net port <;> simp [tcpResult, h]
  · intro e he
    rw [scan_tcp_port_eq] at he
    exact Except.noConfusion he

/-- Witness for C3: port 22 open ⇒ `Open`/`SSH`; port 23 closed ⇒
`Closed`/no service. -/
theorem scan_tcp_port_classification_witness :
    scan_tcp_port (PortScanner.new 1 100) (fun p => p == 22) 22 = .ok
      { port := 22, state := .Open, service := detect_service 22,
        protocol := .TCP, banner := none } ∧
    scan_tcp_port (PortScanner.new 1 100) (fun p => p == 22) 23 = .ok
      { port := 23, state := .Closed, service := none,
        protocol := .TCP, banner := none } :=
  ⟨(scan_tcp_port_classification (PortScanner.new 1 100) (fun p => p == 22) 22).1
      (by decide),
   (scan_tcp_port_classification (PortScanner.new 1 100) (fun p => p == 22) 23).2.1
      (by decide)⟩

/-- C4: the UDP probe classifies a reply within the window as `Open`, an
explicit receive error as `Closed`, and silence until the timeout as
`OpenFiltered`; a bind failure is surfaced as an explicit error for the
call, not folded into a classification. -/
theorem scan_udp_port_classification (s : PortScanner) (env : UdpEnv) (port : Nat) :
    (env.bindOk = false →
      scan_udp_port s env port = .error "Failed to bind UDP socket") ∧
    (env.bindOk = true → env.sendOk = true → env.recv = .reply →
      scan_udp_port s env port = .ok
        { port := port, state := .Open, service := detect_service port,
          protocol := .UDP, banner := none }) ∧
    (env.bindOk = true → env.sendOk = true → env.recv = .recvErr →
      scan_udp_port s env port = .ok
        { port := port, state := .Closed, service := detect_service port,
          protocol := .UDP, banner := none }) ∧
    (env.bindOk = true → env.sendOk = true → env.recv = .timedOut →
      scan_udp_port s env port = .ok
        { port := port, state := .OpenFiltered, service := detect_service port,
          protocol := .UDP, banner := none }) := by
  refine ⟨?_, ?_, ?_, ?_⟩
  · intro hb
    simp [scan_udp_port, hb]
  · intro hb hs hr
    simp [scan_udp_port, hb, hs, hr]
  · intro hb hs hr
    simp [scan_udp_port, hb, hs, hr]
  · intro hb hs hr
    simp [scan_udp_port, hb, hs, hr]

/-- Witness for C4 at concrete system-call environments. -/
theorem scan_udp_port_classification_witness :
    scan_udp_port (PortScanner.new 1 100) ⟨false, true, .reply⟩ 53 =
      .error "Failed to bind UDP socket" ∧
    scan_udp_port (PortScanner.new 1 100) ⟨true, true, .reply⟩ 53 = .ok
      { port := 53, state := .Open, service := detect_service 53,
        protocol := .UDP, banner := none } ∧
    scan_udp_port (PortScanner.new 1 100) ⟨true, true, .recvErr⟩ 53 = .ok
      { port := 53, state := .Closed, service := detect_service 53,
        protocol := .UDP, banner := none } ∧
    scan_udp_port (PortScanner.new 1 100) ⟨true, true, .timedOut⟩ 53 = .ok
      { port := 53, state := .OpenFiltered, service := detect_service 53,
        protocol := .UDP, banner := none } :=
  ⟨(scan_udp_port_classification _ ⟨false, true, .reply⟩ 53).1 rfl,
   (scan_udp_port_classification _ ⟨true, true, .reply⟩ 53).2.1 rfl rfl rfl,
   (scan_udp_port_classification _ ⟨true, true, .recvErr⟩ 53).2.2.1 rfl rfl rfl,
   (scan_udp_port_classification _ ⟨true, true, .timedOut⟩ 53).2.2.2 rfl rfl rfl⟩

/-- C5 (counterexample): `grab_banner` can fail outward.  When the connect
succeeds but `set_read_timeout` fails, the `?` operator propagates the error
instead of yielding `Ok`. -/
theorem grab_banner_error_counterexample :
    grab_banner (PortScanner.new 1 100) ⟨.connected, false, .ok [72, 105]⟩ 80 =
      .error "set_read_timeout failed" := by
  rfl

/-- C5 (amended): `grab_banner` returns `Ok` — `Some` of the permissively
decoded bytes when at least one byte is read, `None` on absence of data, a
read error, connection failure or timeout — except that a failure of the
`set_read_timeout` call on a successfully connected stream propagates as an
error. -/
theorem grab_banner_spec (s : PortScanner) (env : BannerEnv) (port : Nat) :
    (env.connect = .connErr → grab_banner s env port = .ok none) ∧
    (env.connect = .timedOut → grab_banner s env port = .ok none) ∧
    (env.connect = .connected → env.setReadTimeoutOk = true →
      ∀ bs : List Nat, env.readResult = .ok bs →
        grab_banner s env port =
          .ok (if 0 < bs.length then some (from_utf8_lossy bs) else none)) ∧
    (env.connect = .connected → env.setReadTimeoutOk = true →
      ∀ e : Unit, env.readResult = .error e → grab_banner s env port = .ok none) ∧
    (env.connect = .connected → env.setReadTimeoutOk = false →
      grab_banner s env port = .error "set_read_timeout failed") := by
  refine ⟨?_, ?_, ?_, ?_, ?_⟩
  · intro hc
    simp [grab_banner, hc]
  · intro hc
    simp [grab_banner, hc]
  · intro hc ht bs hr
    by_cases hb : 0 < bs.length <;> simp [grab_banner, hc, ht, hr, hb]
  · intro hc ht e hr
    simp [grab_banner, hc, ht, hr]
  · intro hc ht
    simp [grab_banner, hc, ht]

/-- Witness for C5 (amended): two bytes `[72, 105]` decode to banner
`"Hi"`; a timed-out connect yields `Ok None`. -/
theorem grab_banner_spec_witness :
    grab_banner (PortScanner.new 1 100) ⟨.connected, true, .ok [72, 105]⟩ 80 =
      .ok (some "Hi") ∧
    grab_banner (PortScanner.new 1 100) ⟨.timedOut, true, .ok []⟩ 80 = .ok none :=
  ⟨((grab_banner_spec (PortScanner.new 1 100) ⟨.connected, true, .ok [72, 105]⟩
      80).2.2.1 rfl rfl [72, 105] rfl).trans (by rfl),
   (grab_banner_spec (PortScanner.new 1 100) ⟨.timedOut, true, .ok []⟩ 80).2.1 rfl⟩

/-- Common form of `get_scan_info` on inputs where no checked-arithmetic
panic occurs (shared by the estimator claims). -/
theorem get_scan_info_some_eq (s : PortScanner) (hu : s.«end» ≤ 65535)
    (h1 : s.start ≤ s.«end») (h2 : ¬(s.start = 0 ∧ s.«end» = 65535))
    (h3 : 1 ≤ s.max_parallel) (h4 : s.timeout_ms < 2 ^ 64)
    (h5 : (s.«end» - s.start + 1) * s.timeout_ms < 2 ^ 64) :
    get_scan_info s = some
      { port_range := toString s.start ++ "-" ++ toString s.«end»,
        total_ports := s.«end» - s.start + 1,
        estimated_duration_seconds :=
          estimated_millis (s.«end» - s.start + 1) s.timeout_ms s.max_parallel / 1000,
        max_parallel := s.max_parallel } := by
  have hne : ¬ s.«end» < s.start := by omega
  have htot : ¬ 65535 < s.«end» - s.start + 1 := by omega
  have ht64 : s.timeout_ms % 2 ^ 64 = s.timeout_ms := Nat.mod_eq_of_lt h4
  have hmp : ¬ s.max_parallel = 0 := by omega
  simp only [get_scan_info, ht64, hne, htot, hmp, if_false]
  rw [if_neg (by omega)]

/-- C6 (counterexample): on the full port range `(0, 65535)` — which
satisfies `start ≤ end` — the 16-bit expression `end - start + 1` overflows,
so `get_scan_info` panics instead of computing `total_ports = 65536`. -/
theorem get_scan_info_full_range_counterexample :
    (PortScanner.new 0 65535).start ≤ (PortScanner.new 0 65535).«end» ∧
    get_scan_info (PortScanner.new 0 65535) = none := by
  exact ⟨by decide, by decide⟩

/-- C6 (amended): `get_scan_info` is a pure computation; for every
configuration with `start ≤ end`, except the overflowing full range
`(0, 65535)`, and with `max_parallel ≥ 1` and the `u64` product
`total_ports * timeout_ms` in range, it computes
`total_ports = end - start + 1` and an estimated duration of
`total_ports * timeout_ms / max_parallel` milliseconds. -/
theorem get_scan_info_spec (s : PortScanner) (hu : s.«end» ≤ 65535)
    (h1 : s.start ≤ s.«end») (h2 : ¬(s.start = 0 ∧ s.«end» = 65535))
    (h3 : 1 ≤ s.max_parallel) (h4 : s.timeout_ms < 2 ^ 64)
    (h5 : (s.«end» - s.start + 1) * s.timeout_ms < 2 ^ 64) :
    get_scan_info s = some
      { port_range := toString s.start ++ "-" ++ toString s.«end»,
        total_ports := s.«end» - s.start + 1,
        estimated_duration_seconds :=
          estimated_millis (s.«end» - s.start + 1) s.timeout_ms s.max_parallel / 1000,
        max_parallel := s.max_parallel } :=
  get_scan_info_some_eq s hu h1 h2 h3 h4 h5

/-- Witness for C6 (amended) at `new 1 1000`: 1000 ports, estimated
`1000 * 1000 / 100` ms = 10 s. -/
theorem get_scan_info_spec_witness :
    get_scan_info (PortScanner.new 1 1000) = some
      { port_range := "1-1000", total_ports := 1000,
        estimated_duration_seconds := 10, max_parallel := 100 } :=
  (get_scan_info_spec (PortScanner.new 1 1000) (by decide) (by decide) (by decide)
    (by decide) (by decide) (by decide)).trans (by decide)

/-- C7 (counterexample): the stated preconditions (`start ≤ end`,
`(start, end) ≠ (0, 65535)`, `max_parallel ≥ 1`) do not rule out every
arithmetic panic: with a huge timeout the `u64` product
`total_ports * timeout` overflows. -/
theorem get_scan_info_overflow_counterexample :
    ((PortScanner.new 0 1).with_timeout (2 ^ 63)).start ≤
      ((PortScanner.new 0 1).with_timeout (2 ^ 63)).«end» ∧
    ¬(((PortScanner.new 0 1).with_timeout (2 ^ 63)).start = 0 ∧
      ((PortScanner.new 0 1).with_timeout (2 ^ 63)).«end» = 65535) ∧
    1 ≤ ((PortScanner.new 0 1).with_timeout (2 ^ 63)).max_parallel ∧
    get_scan_info ((PortScanner.new 0 1).with_timeout (2 ^ 63)) = none := by
  exact ⟨by decide, by decide, by decide, by decide⟩

/-- C7 (amended): `get_scan_info` is not total: the 16-bit expression
`end - start + 1` underflows for `start > end` and overflows at
`(0, 65535)`, and the duration division panics when `with_parallelism` has
set `max_parallel = 0`; under the preconditions `start ≤ end`,
`(start, end) ≠ (0, 65535)`, `max_parallel ≥ 1` and — additionally forced by
the counterexample — `timeout_ms < 2 ^ 64` with the `u64` product
`total_ports * timeout_ms` in range, no arithmetic panic occurs. -/
theorem get_scan_info_totality (s : PortScanner) :
    (s.«end» < s.start → get_scan_info s = none) ∧
    (s.start = 0 → s.«end» = 65535 → get_scan_info s = none) ∧
    (s.max_parallel = 0 → get_scan_info s = none) ∧
    (s.«end» ≤ 65535 → s.start ≤ s.«end» → ¬(s.start = 0 ∧ s.«end» = 65535) →
      1 ≤ s.max_parallel → s.timeout_ms < 2 ^ 64 →
      (s.«end» - s.start + 1) * s.timeout_ms < 2 ^ 64 →
      (get_scan_info s).isSome = true) := by
  refine ⟨?_, ?_, ?_, ?_⟩
  · intro h
    simp [get_scan_info, h]
  · intro h0 h1
    simp [get_scan_info, h0, h1]
  · intro h
    simp only [get_scan_info]
    split
    · rfl
    · split
      · rfl
      · split
        · rfl
        · simp [h]
  · intro hu h1 h2 h3 h4 h5
    rw [get_scan_info_some_eq s hu h1 h2 h3 h4 h5]
    rfl

/-- Witness for C7 at concrete configurations: inverted range, full range,
zero parallelism, and a benign configuration. -/
theorem get_scan_info_totality_witness :
    get_scan_info (PortScanner.new 2 1) = none ∧
    get_scan_info (PortScanner.new 0 65535) = none ∧
    get_scan_info ((PortScanner.new 1 10).with_parallelism 0) = none ∧
    (get_scan_info (PortScanner.new 1 10)).isSome = true :=
  ⟨(get_scan_info_totality (PortScanner.new 2 1)).1 (by decide),
   (get_scan_info_totality (PortScanner.new 0 65535)).2.1 rfl rfl,
   (get_scan_info_totality ((PortScanner.new 1 10).with_parallelism 0)).2.2.1 rfl,
   (get_scan_info_totality (PortScanner.new 1 10)).2.2.2 (by decide) (by decide)
     (by decide) (by decide) (by decide) (by decide)⟩

/-- C8: the Service Catalog is a static total mapping: port 22 maps to
`"SSH"`, and a port yields a name exactly when it is one of the fixed
well-known ports — every unmapped port yields `none`. -/
theorem detect_service_catalog :
    detect_service 22 = some "SSH" ∧
    ∀ port : Nat,
      (∃ name : String, detect_service port = some name) ↔
        port ∈ knownServicePorts := by
  refine ⟨rfl, fun port => ⟨?_, ?_⟩⟩
  · rintro ⟨name, h⟩
    unfold detect_service at h
    split at h <;> simp_all [knownServicePorts]
  · intro hmem
    fin_cases hmem <;> exact ⟨_, rfl⟩

/-- C9: the estimated duration `total * timeout / max_parallel` computed by
`get_scan_info` is non-decreasing in the port total and in the per-probe
timeout, and non-increasing in `max_parallel ≥ 1`, other parameters
fixed. -/
theorem estimated_millis_monotone (total total' t t' mp mp' : Nat) :
    (total ≤ total' →
      estimated_millis total t mp ≤ estimated_millis total' t mp) ∧
    (t ≤ t' →
      estimated_millis total t mp ≤ estimated_millis total t' mp) ∧
    (1 ≤ mp → mp ≤ mp' →
      estimated_millis total t mp' ≤ estimated_millis total t mp) := by
  refine ⟨?_, ?_, ?_⟩
  · intro h
    exact Nat.div_le_div_right (Nat.mul_le_mul h (Nat.le_refl t))
  · intro h
    exact Nat.div_le_div_right (Nat.mul_le_mul (Nat.le_refl total) h)
  · intro h1 h2
    exact Nat.div_le_div_left h2 h1

/-- Witness for C9 at concrete parameters. -/
theorem estimated_millis_monotone_witness :
    estimated_millis 2 5 1 ≤ estimated_millis 3 5 1 ∧
    estimated_millis 2 5 1 ≤ estimated_millis 2 7 1 ∧
    estimated_millis 2 5 4 ≤ estimated_millis 2 5 1 :=
  ⟨(estimated_millis_monotone 2 3 5 7 1 4).1 (by decide),
   (estimated_millis_monotone 2 3 5 7 1 4).2.1 (by decide),
   (estimated_millis_monotone 2 3 5 7 1 4).2.2 (by decide) (by decide)⟩

end PortScannerModel
